import Mathlib

/-!
Verification development for the capability-resolution and worker-supervision
core of `UPDOG_ROBOT.py` (UPDOGO Robot control suite, v4.3.7, single source
file of about 3330 lines).  Every definition below is a shallow embedding of a
piece of that source file; line numbers in the doc comments refer to it.
Theorems at the end of the file settle the specification's claims against
these definitions.
-/

namespace Updogo

/-! ### Camera filter table and `CameraWorker.set_filter` (source 108-112, 757-788) -/

/-- Source constant `RAW_CAMERA_FILTERS` (lines 108-111): maps a display key to
the internal filter name used by `_apply_filter_to_frame` (`None` maps to no
filter at all). -/
def RAW_CAMERA_FILTERS : List (String × Option String) :=
  [("None", none), ("Grayscale", some "grayscale"), ("Blur", some "blur"),
   ("Edges", some "canny"), ("Sepia", some "sepia"), ("Invert", some "invert"),
   ("Cartoon", some "cartoon")]

/-- Source constant `RAW_DEFAULT_CAMERA_FILTER` (line 112). -/
def RAW_DEFAULT_CAMERA_FILTER : String := "None"

/-- Mutable attribute state of a `CameraWorker` instance as set in
`Worker.__init__` (721-731) and `CameraWorker.__init__` (764-778).  `capOpen`
abstracts whether `self.cap` currently holds a successfully opened capture
device. -/
structure CameraWorkerState where
  workerName : String
  cameraIndex : Nat
  resolutionW : Nat
  resolutionH : Nat
  capOpen : Bool
  currentFilterKey : String
  isRunning : Bool
deriving DecidableEq, Repr

/-- Source `CameraWorker.set_filter` (780-788): if `filter_key` is a key of
`RAW_CAMERA_FILTERS` it becomes `self.current_filter_key`; otherwise only a
warning is logged and no attribute changes. -/
def setFilter (filterKey : String) (s : CameraWorkerState) : CameraWorkerState :=
  if (RAW_CAMERA_FILTERS.map Prod.fst).contains filterKey then
    { s with currentFilterKey := filterKey }
  else
    s

/-! ### `Worker.stop` and `BaseWorkerDummy.stop` (source 712-754, 296-321) -/

/-- Signals either worker base can emit (`finished`, `error`, `status_update`;
source 296-300 and 717-719). -/
inductive WorkerEvt
  | finishedEvt
  | errorEvt (workerName msg : String)
  | statusUpdate (msg : String) (timeoutMs : Nat)
deriving DecidableEq, Repr

/-- Mutable attribute state of the internal `Worker` base (721-731):
`worker_name` and the `_is_running` loop flag. -/
structure InternalWorkerState where
  workerName : String
  isRunning : Bool
deriving DecidableEq, Repr

/-- Source `Worker.stop` (733-740): logs, sets `self._is_running = False`;
it emits no signal (the comment at 740 notes that `finished` is emitted by the
run loop, not by `stop`). -/
def workerStop (w : InternalWorkerState) : InternalWorkerState × List WorkerEvt :=
  ({ w with isRunning := false }, [])

/-- Mutable attribute state of `BaseWorkerDummy` (302-306): only `worker_name`.
It has no running flag. -/
structure BaseWorkerDummyState where
  workerName : String
deriving DecidableEq, Repr

/-- Source `BaseWorkerDummy.stop` (318-321): logs the dummy call only; no
attribute changes and no signal emissions. -/
def baseWorkerDummyStop (d : BaseWorkerDummyState) :
    BaseWorkerDummyState × List WorkerEvt :=
  (d, [])

/-! ### Module resolution: `_try_import` and the `_cls` bindings (source 220-707) -/

/-- Outcome of the underlying Python `__import__` of a real module, as
distinguished by the handlers of `_try_import` (257-290): the module cannot be
located (`ImportError`, 278), an unexpected exception occurs while loading
(284), or the module loads and exposes exactly the listed members (`hasattr`
checks at 260-267). -/
inductive ImportOutcome
  | moduleMissing
  | importRaised
  | loaded (present : List String)
deriving DecidableEq, Repr

/-- Value of a `_cls` variable after resolution: either the real class loaded
from an external module, or the in-file dummy fallback class. -/
inductive PyClass
  | real (moduleName itemName : String)
  | dummy (dummyName : String)
deriving DecidableEq, Repr

/-- Process-wide flags `MODULE_IMPORTS_OK` and `MISSING_MODULES`
(source 220-223), threaded through every `_try_import` call. -/
structure ImportState where
  moduleImportsOk : Bool
  missingModules : List String
deriving DecidableEq, Repr

/-- Source `_try_import` (227-290).  Returns the pair
`(imported-items-or-None, all-found flag)` and the updated global state.
The imported dictionary is returned only when every requested item is present
and at least one item was requested; on a missing module the bare file hint is
appended to `MISSING_MODULES` (281-282), on a missing member or an unexpected
error a decorated hint is appended (270-271, 288-289), each append guarded by
`file_hint not in MISSING_MODULES`. -/
def tryImport (moduleName : String) (itemsToImport : List String)
    (fileHint : String) (o : ImportOutcome) (st : ImportState) :
    (Option (List (String × PyClass)) × Bool) × ImportState :=
  match o with
  | ImportOutcome.moduleMissing =>
      ((none, false),
       { moduleImportsOk := false,
         missingModules :=
           if st.missingModules.contains fileHint then st.missingModules
           else st.missingModules ++ [fileHint] })
  | ImportOutcome.importRaised =>
      ((none, false),
       { moduleImportsOk := false,
         missingModules :=
           if st.missingModules.contains fileHint then st.missingModules
           else st.missingModules ++ [fileHint ++ " (unexpected import error)"] })
  | ImportOutcome.loaded present =>
      let importedItems :=
        (itemsToImport.filter present.contains).map
          (fun itemName => (itemName, PyClass.real moduleName itemName))
      let allItemsFound := itemsToImport.all present.contains
      let st' :=
        if allItemsFound then st
        else
          { moduleImportsOk := false,
            missingModules :=
              if st.missingModules.contains fileHint then st.missingModules
              else st.missingModules ++ [fileHint ++ " (item missing within module)"] }
      ((if allItemsFound && !importedItems.isEmpty then some importedItems else none,
        allItemsFound && !importedItems.isEmpty), st')

/-- One entry of the static registry of real-module attempts at source 656-691:
the module name, the single requested member, the logging file hint, and the
in-file dummy class chosen on failure. -/
structure CapabilityImport where
  moduleName : String
  itemName : String
  fileHint : String
  dummyName : String
deriving DecidableEq, Repr

/-- The eight `_try_import` calls of source 656-691, in source order. -/
def capabilityRegistry : List CapabilityImport :=
  [{ moduleName := "emotion_engine", itemName := "EmotionWorker",
     fileHint := "emotion_engine.py", dummyName := "EmotionWorker_Dummy" },
   { moduleName := "robot_appearance", itemName := "RobotAppearanceWidget",
     fileHint := "robot_appearance.py", dummyName := "RobotAppearanceWidget_Dummy" },
   { moduleName := "voice_output_v2", itemName := "TTSWorker",
     fileHint := "voice_output_v2.py", dummyName := "TTSWorker_Dummy" },
   { moduleName := "robot_audio_listener_v2", itemName := "VoiceListenerWorker",
     fileHint := "robot_audio_listener_v2.py", dummyName := "VoiceListenerWorker_Dummy" },
   { moduleName := "nlp_worker_v2", itemName := "NLPWorker",
     fileHint := "nlp_worker_v2.py", dummyName := "NLPWorker_Dummy" },
   { moduleName := "robot_info_module_v2", itemName := "RobotInfoModule",
     fileHint := "robot_info_module_v2.py", dummyName := "RobotInfoModule_Dummy" },
   { moduleName := "grammar_system_v2", itemName := "GrammarSystem",
     fileHint := "grammar_system_v2.py", dummyName := "GrammarSystem_Dummy" },
   { moduleName := "multi_language_correction_v2", itemName := "EnhancedMultilingualCorrector",
     fileHint := "multi_language_correction_v2.py", dummyName := "MultiLangCorrectionModule_Dummy" }]

/-- Resolution of the `_cls` bindings (source 659-691), in source order, with
the global import state threaded through.  Each binding follows the source
pattern `X_cls = imported_items["X"] if imported_items else X_Dummy`; the
dictionary lookup cannot miss because `tryImport` returns a dictionary only
when every requested item was found, so `getD` never takes its default. -/
def resolveEntries (outcomes : String → ImportOutcome) :
    List CapabilityImport → ImportState → List (String × PyClass) × ImportState
  | [], st => ([], st)
  | e :: rest, st =>
      let r := tryImport e.moduleName [e.itemName] e.fileHint (outcomes e.moduleName) st
      let cls :=
        match r.1.1 with
        | some d => (d.lookup e.itemName).getD (PyClass.dummy e.dummyName)
        | none => PyClass.dummy e.dummyName
      let tail := resolveEntries outcomes rest r.2
      ((e.itemName, cls) :: tail.1, tail.2)

/-! ### Placement of `_setup_workers_and_threads` inside `class MainWindow`
    (source 1197-3279) -/

/-- Names of all `def` statements written at class-body indentation (four
spaces) inside `class MainWindow` (source lines 1209-3207).  In Python exactly
these become attributes of the class, hence methods reachable as
`self.<name>`. -/
def mainWindowClassBodyDefs : List String :=
  ["__init__", "_perform_full_initialization", "_load_config", "_setup_logging",
   "_load_app_icons", "_init_ui", "_create_menu_bar", "_create_chat_interface",
   "_create_robot_interface", "_create_camera_interface", "_create_control_panel",
   "_handle_theme_action_triggered", "_handle_theme_combo_change_slot",
   "_apply_theme", "_update_theme_menu_and_combo_selection", "_update_chat_colors",
   "_update_chat_display_style", "zoom_in_chat", "zoom_out_chat", "reset_chat_zoom",
   "_apply_chat_font_size", "add_chat_message", "_update_all_button_states",
   "_update_camera_button_text", "_update_voice_output_button_text",
   "_update_voice_input_button_text", "show_about_dialog_slot",
   "open_settings_dialog_slot", "handle_settings_changed",
   "show_user_guide_dialog_slot", "show_module_status_slot",
   "_get_module_statuses", "_update_module_status_icon",
   "save_chat_history_as_slot", "load_chat_history_slot",
   "_initial_worker_calls_and_notifications", "_request_tts_voices",
   "check_module_import_status_and_notify", "send_input_slot",
   "_handle_slash_command", "clear_chat_slot", "toggle_camera_slot",
   "_handle_filter_combo_change_slot", "capture_image_slot",
   "toggle_voice_output_slot", "toggle_voice_input_slot", "interrupt_tts_slot",
   "change_tts_voice_selection_slot", "change_tts_rate_slot",
   "change_tts_volume_slot", "handle_nlp_result", "handle_emotion_update",
   "handle_speech_started", "handle_speech_word_boundary",
   "handle_speech_finished", "handle_available_voices",
   "handle_recognized_voice", "handle_voice_listener_started_ui",
   "handle_voice_listener_stopped_ui", "handle_vad_status_changed",
   "handle_listening_error", "update_camera_feed", "handle_image_saved",
   "handle_worker_error", "update_status", "closeEvent"]

/-- Names of the `def` statements written at eight-space indentation inside the
body of `check_module_import_status_and_notify` (source lines 2519 and 2524).
Python binds these as local functions of that method's body each time it runs;
they never become attributes of `MainWindow`. -/
def checkModuleImportStatusNestedDefs : List String :=
  ["_initial_worker_calls_and_notifications", "_setup_workers_and_threads"]

/-- Python attribute lookup on a `MainWindow` instance for a method name:
it succeeds exactly when the name is one of the class-body `def`s. -/
def mainWindowHasMethod (name : String) : Bool :=
  mainWindowClassBodyDefs.contains name

/-! ### The worker setup loop `_setup_workers_and_threads` (source 2524-2693) -/

/-- The six capability names of `worker_setups` (source 2535-2542), in loop
order. -/
def workerSetups : List String :=
  ["emotion", "tts", "voice_listener", "nlp", "camera", "image_save"]

/-- What gets recorded in `self.workers[name]` for one capability:
whether a worker instance was stored (`None` maps to `false`), whether a
`QThread` was stored, and whether `thread.start()` was called during setup. -/
structure WorkerSlot where
  hasWorker : Bool
  hasThread : Bool
  threadStarted : Bool
deriving DecidableEq, Repr

/-- State built up by the setup loop: the `self.workers` mapping (insertion
order preserved) and the global `MISSING_MODULES` list. -/
structure SetupState where
  workers : List (String × WorkerSlot)
  missingModules : List String
deriving DecidableEq, Repr

/-- One iteration of the setup loop (source 2544-2681).
`constructionRaises name` abstracts whether any exception escapes the
construction and wiring of that capability's worker inside the `try` block.
On success the worker and thread are recorded and the thread is started unless
the capability is `"camera"` (2670-2673, `if worker_name not in ["camera"]`);
on an exception the `except` block (2676-2681) records a `None` worker and
`None` thread and appends `"<name> (setup_failed)"` to `MISSING_MODULES`,
guarded by `worker_name not in MISSING_MODULES`. -/
def setupOneWorker (constructionRaises : String → Bool) (st : SetupState)
    (workerName : String) : SetupState :=
  if constructionRaises workerName then
    { workers := st.workers ++ [(workerName,
        { hasWorker := false, hasThread := false, threadStarted := false })],
      missingModules :=
        if st.missingModules.contains workerName then st.missingModules
        else st.missingModules ++ [workerName ++ " (setup_failed)"] }
  else
    { workers := st.workers ++ [(workerName,
        { hasWorker := true, hasThread := true,
          threadStarted := workerName != "camera" })],
      missingModules := st.missingModules }

/-- The setup loop over a list of capability names. -/
def setupWorkersLoop (constructionRaises : String → Bool) :
    List String → SetupState → SetupState
  | [], st => st
  | name :: rest, st =>
      setupWorkersLoop constructionRaises rest
        (setupOneWorker constructionRaises st name)

/-- Body of `_setup_workers_and_threads` (2524-2693) restricted to the
lifecycle facts the claims are about: it clears `self.workers` (2532) and runs
the loop over the six capabilities, with `missing0` the value of
`MISSING_MODULES` on entry. -/
def setupWorkersAndThreads (constructionRaises : String → Bool)
    (missing0 : List String) : SetupState :=
  setupWorkersLoop constructionRaises workerSetups
    { workers := [], missingModules := missing0 }

/-! ### `_perform_full_initialization` and reachability of the setup routine
    (source 1274-1350) -/

/-- Outcome of the worker-setup step of `_perform_full_initialization`
(1327-1330), carrying the final value of `self.workers`. -/
inductive InitOutcome
  | completed (workers : List (String × WorkerSlot))
  | abortedByException (exceptionName : String) (workers : List (String × WorkerSlot))
deriving DecidableEq, Repr

/-- Model of the worker-setup step of `_perform_full_initialization` (1329):
`self._setup_workers_and_threads()` first performs attribute lookup of
`"_setup_workers_and_threads"` on the instance.  If the name is a class-body
method the call proceeds and populates `self.workers`; otherwise Python raises
`AttributeError`, the surrounding `except Exception` (1339) swallows it, and
`self.workers` keeps the empty mapping assigned in `__init__` (1222). -/
def performFullInitialization (constructionRaises : String → Bool) : InitOutcome :=
  if mainWindowHasMethod "_setup_workers_and_threads" then
    InitOutcome.completed (setupWorkersAndThreads constructionRaises []).workers
  else
    InitOutcome.abortedByException "AttributeError" []

/-! ### Shutdown loop of `closeEvent` (source 3207-3255) -/

/-- Behavior of one `self.workers` entry under shutdown.  `gracefulFinishTime`
is the wall-clock time after `thread.quit()` at which the thread's event loop
would finish on its own (`none` when the worker ignores the stop request
forever); `terminateFinishTime` is the time for the thread to die after
`thread.terminate()` (`none` when even forced termination fails). -/
structure ShutdownThreadBehavior where
  hasWorker : Bool
  hasThread : Bool
  isRunning : Bool
  gracefulFinishTime : Option Nat
  terminateFinishTime : Option Nat

/-- QThread `wait(timeout)`:  blocks until the thread finishes or the timeout
elapses, whichever comes first; returns the time actually spent blocking and
whether the thread finished in time. -/
def waitCall (timeoutMs : Nat) (finishTime : Option Nat) : Nat × Bool :=
  match finishTime with
  | some t => if t ≤ timeoutMs then (t, true) else (timeoutMs, false)
  | none => (timeoutMs, false)

/-- Blocking performed by the shutdown loop body (3240-3251) for one entry:
total milliseconds spent in `thread.wait` calls, number of graceful
`wait(2500)` calls, and number of post-terminate `wait(1000)` calls.  The
`QMetaObject.invokeMethod(..., Qt.QueuedConnection)` stop request (3231-3234)
is asynchronous and never blocks. -/
def closeEventWaitOne (b : ShutdownThreadBehavior) : Nat × Nat × Nat :=
  if b.hasThread && b.isRunning then
    let g := waitCall 2500 b.gracefulFinishTime
    if g.2 then (g.1, 1, 0)
    else
      let f := waitCall 1000 b.terminateFinishTime
      (g.1 + f.1, 1, 1)
  else (0, 0, 0)

/-- The shutdown loop of `closeEvent` (3223-3253) over all entries of the
`self.workers` mapping: accumulated blocking time and wait-call counts. -/
def closeEventShutdown : List ShutdownThreadBehavior → Nat × Nat × Nat
  | [] => (0, 0, 0)
  | b :: rest =>
      let r := closeEventWaitOne b
      let acc := closeEventShutdown rest
      (r.1 + acc.1, r.2.1 + acc.2.1, r.2.2 + acc.2.2)

/-! ### `CameraWorker.run` (source 825-871) -/

/-- Actions of one execution of `CameraWorker.run`, in program order: the two
resource actions on `self.cap` (`cv2.VideoCapture(...)` at 835 and
`self.cap.release()` at 866) and the emitted signals. -/
inductive CamAct
  | acquireCap (opened : Bool)
  | releaseCap
  | emitError (workerName msg : String)
  | emitFinished
  | emitFrameReady (frame : Nat)
  | emitStatus (msg : String) (timeoutMs : Nat)
deriving DecidableEq, Repr

/-- What one iteration of the capture loop (849-863) observes: the stop flag
was cleared before the iteration, `self.cap.read()` failed, or a frame was
read.  A finite step list models the asynchronous environment; an exhausted
list stands for the stop flag being observed. -/
inductive CamLoopStep
  | stopRequested
  | readFail
  | readOk (frame : Nat)
deriving DecidableEq, Repr

/-- The `while self._is_running` capture loop (849-863): a cleared stop flag or
a failed read exits the loop; a successful read emits `frame_ready` with the
(possibly filtered) frame and continues. -/
def cameraLoop : List CamLoopStep → List CamAct
  | [] => []
  | CamLoopStep.stopRequested :: _ => []
  | CamLoopStep.readFail :: _ => []
  | CamLoopStep.readOk f :: rest => CamAct.emitFrameReady f :: cameraLoop rest

/-- Source `CameraWorker.run` (825-871).  Without OpenCV: `error` then
`finished` and return (829-832).  With OpenCV, `cv2.VideoCapture` is called;
if the device did not open: `error` then `finished` and return (836-841),
without touching `release`.  Otherwise the start status is emitted, the loop
runs, and on loop exit `self.cap.release()` is called (865-867) before the
stop status and the final `finished` (869-870). -/
def cameraRun (cv2Available : Bool) (cameraIndex : Nat) (openOk : Bool)
    (steps : List CamLoopStep) : List CamAct :=
  if !cv2Available then
    [CamAct.emitError "CameraWorker"
       "OpenCV (cv2) is not available. Camera cannot operate.",
     CamAct.emitFinished]
  else if !openOk then
    [CamAct.acquireCap false,
     CamAct.emitError "CameraWorker"
       ("Cannot open camera at index " ++ toString cameraIndex ++ "."),
     CamAct.emitFinished]
  else
    CamAct.acquireCap true ::
    CamAct.emitStatus "Camera stream started." 2000 ::
    (cameraLoop steps ++
      [CamAct.releaseCap, CamAct.emitStatus "Camera stream stopped." 2000,
       CamAct.emitFinished])

/-- Whether an action is an emitted signal (resource actions are not). -/
def isSignalAct : CamAct → Bool
  | CamAct.acquireCap _ => false
  | CamAct.releaseCap => false
  | _ => true

/-- The signal trace of a run: its actions with the resource actions dropped. -/
def camSignals (tr : List CamAct) : List CamAct := tr.filter isSignalAct

/-- Scanning check over an action trace: every `finished` emission happens
while no opened-and-unreleased capture device is held.  The Boolean argument
is whether such a device is held at the start of the remaining trace. -/
def finishedSafeFrom : List CamAct → Bool → Bool
  | [], _ => true
  | a :: rest, held =>
      match a with
      | CamAct.acquireCap opened => finishedSafeFrom rest opened
      | CamAct.releaseCap => finishedSafeFrom rest false
      | CamAct.emitFinished => !held && finishedSafeFrom rest held
      | _ => finishedSafeFrom rest held

/-- Scanning check over an action trace: every `finished` emission is preceded
by a `release` of the capture device.  The Boolean argument is whether a
release has already been seen. -/
def releaseBeforeFinishedFrom : List CamAct → Bool → Bool
  | [], _ => true
  | a :: rest, seen =>
      match a with
      | CamAct.releaseCap => releaseBeforeFinishedFrom rest true
      | CamAct.emitFinished => seen && releaseBeforeFinishedFrom rest seen
      | _ => releaseBeforeFinishedFrom rest seen

/-! ### `TTSWorker_Dummy.speak` (source 493-532) -/

/-- Signals of the dummy TTS worker relevant to `speak` (495-497). -/
inductive TTSEvt
  | speechStarted (text : String)
  | speechWordBoundary (word : String) (pos len : Nat)
  | speechFinished (text : String)
deriving DecidableEq, Repr

/-- One emission on the dummy TTS timeline: the millisecond delay at which it
is emitted or scheduled (`QTimer.singleShot`), and the signal. -/
structure SchedEvt where
  timeMs : Nat
  evt : TTSEvt
deriving DecidableEq, Repr

/-- Python `str.split()` with no arguments, as used at 517: split on runs of
whitespace, with no empty words. -/
def pySplitWhitespace (s : String) : List String :=
  (s.split Char.isWhitespace).filter (fun w => w ≠ "")

/-- Source constant `delay_ms_per_word` (519). -/
def delayMsPerWord : Nat := 200

/-- Word-boundary timers scheduled by the `for i, word_val in enumerate(words)`
loop (520-528): word `i` fires at `i * delay + delay // 2` carrying the word,
its running character position, and its length; `char_pos` advances by the word
length plus one for the space. -/
def speakWordTimers : List String → Nat → Nat → List SchedEvt
  | [], _, _ => []
  | w :: ws, i, charPos =>
      { timeMs := i * delayMsPerWord + delayMsPerWord / 2,
        evt := TTSEvt.speechWordBoundary w charPos w.length } ::
      speakWordTimers ws (i + 1) (charPos + w.length + 1)

/-- Source `TTSWorker_Dummy.speak` (512-532): `speech_started.emit(text)` runs
synchronously (time 0), then the word-boundary timers, then
`speech_finished.emit(text)` is scheduled at `len(words) * delay + delay`
(529-532). -/
def speak (text : String) : List SchedEvt :=
  let words := pySplitWhitespace text
  { timeMs := 0, evt := TTSEvt.speechStarted text } ::
  (speakWordTimers words 0 0 ++
    [{ timeMs := words.length * delayMsPerWord + delayMsPerWord,
       evt := TTSEvt.speechFinished text }])

/-- Whether a TTS signal is a `speech_finished` emission. -/
def isSpeechFinished : TTSEvt → Bool
  | TTSEvt.speechFinished _ => true
  | _ => false

/-- The attribute state of a freshly constructed `CameraWorker` with an empty
configuration dictionary: defaults from 106-112 and the `__init__` bodies at
721-731 and 764-778 (`self.cap = None`, default camera index and resolution,
default filter key, `_is_running = True`). -/
def initialCameraWorkerState : CameraWorkerState :=
  { workerName := "CameraWorker", cameraIndex := 0, resolutionW := 640,
    resolutionH := 480, capOpen := false,
    currentFilterKey := RAW_DEFAULT_CAMERA_FILTER, isRunning := true }

/-!
## Theorems

Auxiliary lemmas come first inside each block; each claim is settled by the
single theorem named after it.
-/

/-- Auxiliary: resolution produces one binding per registry entry. -/
theorem resolveEntries_length (outcomes : String → ImportOutcome) :
    ∀ (entries : List CapabilityImport) (st : ImportState),
      (resolveEntries outcomes entries st).1.length = entries.length := by
  intro entries
  induction entries with
  | nil => intro st; rfl
  | cons e rest ih =>
      intro st
      simp only [resolveEntries, List.length_cons]
      rw [ih]

/-- Auxiliary: every binding produced by `resolveEntries` is the real class of
its registry entry or that entry's dummy class, whatever the import outcomes
and whatever the global import state. -/
theorem resolveEntries_real_or_dummy (outcomes : String → ImportOutcome) :
    ∀ (entries : List CapabilityImport) (st : ImportState),
      ∀ p ∈ (resolveEntries outcomes entries st).1.zip entries,
        p.1.2 = PyClass.real p.2.moduleName p.2.itemName ∨
        p.1.2 = PyClass.dummy p.2.dummyName := by
  intro entries
  induction entries with
  | nil => intro st p hp; simp [resolveEntries] at hp
  | cons e rest ih =>
      intro st p hp
      simp only [resolveEntries, List.zip_cons_cons, List.mem_cons] at hp
      rcases hp with hp | hp
      · subst hp
        cases ho : outcomes e.moduleName with
        | moduleMissing => right; simp [tryImport, ho]
        | importRaised => right; simp [tryImport, ho]
        | loaded present =>
            by_cases hp2 : present.contains e.itemName = true
            · left
              have hm : e.itemName ∈ present := by simpa using hp2
              simp [tryImport, ho, hm, List.filter_cons, List.lookup]
            · right
              have hm : e.itemName ∉ present := by simpa using hp2
              simp [tryImport, ho, hm, List.filter_cons]
      · exact ih _ p hp

/-- C2.  For every capability in the static registry of eight real-module
attempts, resolution terminates (the embedding is a total function because
`_try_import` catches `ImportError` and `Exception`) and binds the
capability's `_cls` variable to either the real imported class or the in-file
dummy fallback class, for every outcome of the underlying import (module
missing, member missing, unexpected exception) and every prior global import
state: there is no unresolved or failed terminal binding. -/
theorem c2_resolution_total_real_or_dummy (outcomes : String → ImportOutcome)
    (st : ImportState) :
    (resolveEntries outcomes capabilityRegistry st).1.length = 8 ∧
    ∀ p ∈ (resolveEntries outcomes capabilityRegistry st).1.zip capabilityRegistry,
      p.1.2 = PyClass.real p.2.moduleName p.2.itemName ∨
      p.1.2 = PyClass.dummy p.2.dummyName := by
  refine ⟨?_, resolveEntries_real_or_dummy outcomes capabilityRegistry st⟩
  rw [resolveEntries_length]
  rfl

/-- Witness for C2 at a concrete outcome assignment: with every module
missing, the emotion capability resolves to its dummy class. -/
theorem c2_witness :
    (resolveEntries (fun _ => ImportOutcome.moduleMissing) capabilityRegistry
        { moduleImportsOk := true, missingModules := [] }).1.length = 8 ∧
    (PyClass.dummy "EmotionWorker_Dummy" =
        PyClass.real "emotion_engine" "EmotionWorker" ∨
      PyClass.dummy "EmotionWorker_Dummy" = PyClass.dummy "EmotionWorker_Dummy") :=
  ⟨(c2_resolution_total_real_or_dummy (fun _ => ImportOutcome.moduleMissing)
      { moduleImportsOk := true, missingModules := [] }).1,
   (c2_resolution_total_real_or_dummy (fun _ => ImportOutcome.moduleMissing)
      { moduleImportsOk := true, missingModules := [] }).2
     (("EmotionWorker", PyClass.dummy "EmotionWorker_Dummy"),
      { moduleName := "emotion_engine", itemName := "EmotionWorker",
        fileHint := "emotion_engine.py", dummyName := "EmotionWorker_Dummy" })
     (by decide)⟩

/-- C7.  If the module loads but at least one requested member is absent,
`_try_import` returns no imported items and reports failure — even when other
requested members were found — clearing `MODULE_IMPORTS_OK` and recording the
file hint (decorated with " (item missing within module)") in
`MISSING_MODULES` whenever the bare hint was not already recorded. -/
theorem c7_partial_member_match_is_total_failure (moduleName : String)
    (itemsToImport : List String) (fileHint : String) (present : List String)
    (st : ImportState) (i : String) (hi : i ∈ itemsToImport)
    (habsent : present.contains i = false)
    (hfresh : st.missingModules.contains fileHint = false) :
    (tryImport moduleName itemsToImport fileHint
        (ImportOutcome.loaded present) st).1 = (none, false) ∧
    (tryImport moduleName itemsToImport fileHint
        (ImportOutcome.loaded present) st).2.moduleImportsOk = false ∧
    (tryImport moduleName itemsToImport fileHint
        (ImportOutcome.loaded present) st).2.missingModules.contains
      (fileHint ++ " (item missing within module)") = true := by
  have hall : itemsToImport.all present.contains = false := by
    rw [← Bool.not_eq_true, List.all_eq_true]
    intro hforall
    have := hforall i hi
    rw [habsent] at this
    exact Bool.false_ne_true this
  have hfresh' : fileHint ∉ st.missingModules := by simpa using hfresh
  refine ⟨?_, ?_, ?_⟩ <;> simp [tryImport, hall, hfresh']

/-- Witness for C7 at a concrete partial match: module "emotion_engine" loads
exposing only `EmotionWorker` while `EmotionWorker` and `Extra` are requested. -/
theorem c7_witness :
    (tryImport "emotion_engine" ["EmotionWorker", "Extra"] "emotion_engine.py"
        (ImportOutcome.loaded ["EmotionWorker"])
        { moduleImportsOk := true, missingModules := [] }).1 = (none, false) ∧
    (tryImport "emotion_engine" ["EmotionWorker", "Extra"] "emotion_engine.py"
        (ImportOutcome.loaded ["EmotionWorker"])
        { moduleImportsOk := true, missingModules := [] }).2.moduleImportsOk = false ∧
    (tryImport "emotion_engine" ["EmotionWorker", "Extra"] "emotion_engine.py"
        (ImportOutcome.loaded ["EmotionWorker"])
        { moduleImportsOk := true, missingModules := [] }).2.missingModules.contains
      ("emotion_engine.py" ++ " (item missing within module)") = true :=
  c7_partial_member_match_is_total_failure "emotion_engine"
    ["EmotionWorker", "Extra"] "emotion_engine.py" ["EmotionWorker"]
    { moduleImportsOk := true, missingModules := [] } "Extra"
    (by decide) (by decide) (by decide)

/-- C9.  Calling `stop()` twice leaves both worker bases in the same terminal
state as calling it once, from any starting state: the internal `Worker.stop`
only clears `_is_running` (already false after the first call) and changes no
other attribute, the dummy base's `stop` changes nothing at all, and neither
`stop` emits any signal. -/
theorem c9_stop_idempotent (w : InternalWorkerState) (d : BaseWorkerDummyState) :
    workerStop (workerStop w).1 = workerStop w ∧
    (workerStop w).1.isRunning = false ∧
    (workerStop w).1.workerName = w.workerName ∧
    (workerStop w).2 = [] ∧
    baseWorkerDummyStop (baseWorkerDummyStop d).1 = baseWorkerDummyStop d ∧
    (baseWorkerDummyStop d).2 = [] := by
  simp [workerStop, baseWorkerDummyStop]

/-- C10.  `CameraWorker.set_filter` with a key of the static filter table sets
`current_filter_key` to exactly that key and changes nothing else (the record
update touches no other field); with any other key it leaves the whole worker
state unchanged. -/
theorem c10_set_filter_frame_effect (filterKey : String) (s : CameraWorkerState) :
    ((RAW_CAMERA_FILTERS.map Prod.fst).contains filterKey = true →
      setFilter filterKey s = { s with currentFilterKey := filterKey }) ∧
    ((RAW_CAMERA_FILTERS.map Prod.fst).contains filterKey = false →
      setFilter filterKey s = s) := by
  constructor <;> intro h <;> simp only [setFilter, h] <;> simp

/-- Witness for C10 at concrete keys: "Grayscale" is in the table and updates
the filter key of a fresh worker; "Nope" is not and leaves it unchanged. -/
theorem c10_witness :
    setFilter "Grayscale" initialCameraWorkerState =
      { initialCameraWorkerState with currentFilterKey := "Grayscale" } ∧
    setFilter "Nope" initialCameraWorkerState = initialCameraWorkerState :=
  ⟨(c10_set_filter_frame_effect "Grayscale" initialCameraWorkerState).1 (by decide),
   (c10_set_filter_frame_effect "Nope" initialCameraWorkerState).2 (by decide)⟩

/-- Auxiliary: one shutdown-loop iteration blocks at most 2500 + 1000 ms and
performs at most one graceful wait and at most one post-terminate wait. -/
theorem closeEventWaitOne_bounds (b : ShutdownThreadBehavior) :
    (closeEventWaitOne b).1 ≤ 3500 ∧ (closeEventWaitOne b).2.1 ≤ 1 ∧
    (closeEventWaitOne b).2.2 ≤ 1 := by
  rcases b with ⟨hw, hth, hrun, g, t⟩
  unfold closeEventWaitOne waitCall
  dsimp only
  cases (hth && hrun)
  · simp
  · cases g <;> cases t <;> dsimp only <;> split_ifs <;>
      refine ⟨?_, ?_, ?_⟩ <;> simp <;> omega

/-- C4.  The shutdown loop of `closeEvent` always returns, for every state of
the workers mapping and every worker behavior — including every worker
ignoring its stop request and even forced termination failing: it performs at
most one bounded graceful wait (2500 ms) and at most one bounded
post-terminate grace wait (1000 ms) per worker, so for N workers it blocks at
most N * 3500 ms in total and never indefinitely. -/
theorem c4_bounded_shutdown (ws : List ShutdownThreadBehavior) :
    (closeEventShutdown ws).1 ≤ 3500 * ws.length ∧
    (closeEventShutdown ws).2.1 ≤ ws.length ∧
    (closeEventShutdown ws).2.2 ≤ ws.length := by
  induction ws with
  | nil => simp [closeEventShutdown]
  | cons b rest ih =>
      obtain ⟨h1, h2, h3⟩ := ih
      obtain ⟨g1, g2, g3⟩ := closeEventWaitOne_bounds b
      simp only [closeEventShutdown, List.length_cons]
      refine ⟨?_, ?_, ?_⟩ <;> omega

/-- Auxiliary: the capture loop emits only `frame_ready` signals, so it is
transparent to the finished-while-holding check. -/
theorem finishedSafeFrom_cameraLoop (steps : List CamLoopStep) (l : List CamAct)
    (held : Bool) :
    finishedSafeFrom (cameraLoop steps ++ l) held = finishedSafeFrom l held := by
  induction steps with
  | nil => rfl
  | cons s rest ih =>
      cases s with
      | stopRequested => rfl
      | readFail => rfl
      | readOk f =>
          simp only [cameraLoop, List.cons_append, finishedSafeFrom]
          exact ih

/-- Auxiliary: the capture loop emits only `frame_ready` signals, so it is
transparent to the release-before-finished check. -/
theorem releaseBeforeFinishedFrom_cameraLoop (steps : List CamLoopStep)
    (l : List CamAct) (seen : Bool) :
    releaseBeforeFinishedFrom (cameraLoop steps ++ l) seen =
      releaseBeforeFinishedFrom l seen := by
  induction steps with
  | nil => rfl
  | cons s rest ih =>
      cases s with
      | stopRequested => rfl
      | readFail => rfl
      | readOk f =>
          simp only [cameraLoop, List.cons_append, releaseBeforeFinishedFrom]
          exact ih

/-- C5.  In every execution of `CameraWorker.run` — normal stop exit,
read-failure exit, OpenCV-unavailable exit and device-open-failure exit — the
`finished` emission never happens while an opened-and-unreleased capture
device is held, and in every execution that actually opened the device the
`release()` call precedes the `finished` emission in the trace. -/
theorem c5_release_before_finished (cv2Available : Bool) (cameraIndex : Nat)
    (openOk : Bool) (steps : List CamLoopStep) :
    finishedSafeFrom (cameraRun cv2Available cameraIndex openOk steps) false = true ∧
    (cv2Available = true → openOk = true →
      releaseBeforeFinishedFrom
        (cameraRun cv2Available cameraIndex openOk steps) false = true) := by
  constructor
  · cases cv2Available
    · simp [cameraRun, finishedSafeFrom]
    · cases openOk
      · simp [cameraRun, finishedSafeFrom]
      · simp [cameraRun, finishedSafeFrom, finishedSafeFrom_cameraLoop]
  · intro h1 h2
    subst h1; subst h2
    simp [cameraRun, releaseBeforeFinishedFrom,
      releaseBeforeFinishedFrom_cameraLoop]

/-- Witness for C5 at a concrete successful run: the device opens, one frame
is read, then a stop request ends the loop. -/
theorem c5_witness :
    finishedSafeFrom
      (cameraRun true 0 true [CamLoopStep.readOk 7, CamLoopStep.stopRequested])
      false = true ∧
    releaseBeforeFinishedFrom
      (cameraRun true 0 true [CamLoopStep.readOk 7, CamLoopStep.stopRequested])
      false = true :=
  ⟨(c5_release_before_finished true 0 true
      [CamLoopStep.readOk 7, CamLoopStep.stopRequested]).1,
   (c5_release_before_finished true 0 true
      [CamLoopStep.readOk 7, CamLoopStep.stopRequested]).2 rfl rfl⟩

/-- C6.  When `CameraWorker.run` cannot open its device (OpenCV missing, or
the capture device at the configured index fails to open), the signal trace of
that execution is exactly one `error` carrying the worker's name followed by
`finished` — in particular no `frame_ready` is ever emitted. -/
theorem c6_open_failure_emits_error_then_finished (cv2Available : Bool)
    (cameraIndex : Nat) (openOk : Bool) (steps : List CamLoopStep)
    (h : cv2Available = false ∨ openOk = false) :
    ∃ msg, camSignals (cameraRun cv2Available cameraIndex openOk steps) =
      [CamAct.emitError "CameraWorker" msg, CamAct.emitFinished] := by
  rcases h with h | h
  · subst h
    exact ⟨"OpenCV (cv2) is not available. Camera cannot operate.",
      by simp [cameraRun, camSignals, isSignalAct]⟩
  · subst h
    cases cv2Available
    · exact ⟨"OpenCV (cv2) is not available. Camera cannot operate.",
        by simp [cameraRun, camSignals, isSignalAct]⟩
    · exact ⟨"Cannot open camera at index " ++ toString cameraIndex ++ ".",
        by simp [cameraRun, camSignals, isSignalAct]⟩

/-- Witness for C6 with OpenCV unavailable at camera index 0. -/
theorem c6_witness :
    ∃ msg, camSignals (cameraRun false 0 true []) =
      [CamAct.emitError "CameraWorker" msg, CamAct.emitFinished] :=
  c6_open_failure_emits_error_then_finished false 0 true [] (Or.inl rfl)

/-- Auxiliary: word-boundary timers never carry `speech_finished`, and all of
them fire strictly before `(i + number-of-words) * delay + delay`. -/
theorem speakWordTimers_mem (ws : List String) :
    ∀ i charPos e, e ∈ speakWordTimers ws i charPos →
      isSpeechFinished e.evt = false ∧
      e.timeMs < (i + ws.length) * delayMsPerWord + delayMsPerWord := by
  induction ws with
  | nil => intro i c e he; simp [speakWordTimers] at he
  | cons w rest ih =>
      intro i c e he
      simp only [speakWordTimers, List.mem_cons] at he
      rcases he with he | he
      · subst he
        refine ⟨rfl, ?_⟩
        simp only [delayMsPerWord, List.length_cons]
        omega
      · obtain ⟨hf, ht⟩ := ih (i + 1) (c + w.length + 1) e he
        refine ⟨hf, ?_⟩
        simp only [delayMsPerWord, List.length_cons] at ht ⊢
        omega

/-- C8.  For every non-empty text, the dummy TTS `speak` emits
`speech_started` carrying exactly that text synchronously (time 0, first on
the timeline), and schedules exactly one `speech_finished` — carrying exactly
that same text — at `len(words) * delay + delay` ms; every other emission
(the started signal and all word-boundary signals) occurs strictly earlier,
so `speech_started(text)` precedes `speech_finished(text)` and the finished
signal is always eventually scheduled: no consumer waiting for the pair can
deadlock. -/
theorem c8_speak_started_before_finished (text : String) (hne : text ≠ "") :
    (speak text).head? = some { timeMs := 0, evt := TTSEvt.speechStarted text } ∧
    (speak text).filter (fun e => isSpeechFinished e.evt) =
      [{ timeMs := (pySplitWhitespace text).length * delayMsPerWord + delayMsPerWord,
         evt := TTSEvt.speechFinished text }] ∧
    (∀ e ∈ speak text, isSpeechFinished e.evt = false →
      e.timeMs < (pySplitWhitespace text).length * delayMsPerWord + delayMsPerWord) ∧
    0 < (pySplitWhitespace text).length * delayMsPerWord + delayMsPerWord := by
  refine ⟨rfl, ?_, ?_, ?_⟩
  · simp only [speak, List.filter_cons, List.filter_append]
    have hnil : (speakWordTimers (pySplitWhitespace text) 0 0).filter
        (fun e => isSpeechFinished e.evt) = [] := by
      rw [List.filter_eq_nil_iff]
      intro e he
      simp [(speakWordTimers_mem (pySplitWhitespace text) 0 0 e he).1]
    rw [hnil]
    simp [isSpeechFinished]
  · intro e he hf
    simp only [speak, List.mem_cons, List.mem_append, List.mem_singleton] at he
    rcases he with he | he | he | he
    · subst he
      simp only [delayMsPerWord]
      omega
    · have := (speakWordTimers_mem (pySplitWhitespace text) 0 0 e he).2
      simpa using this
    · subst he
      simp [isSpeechFinished] at hf
    · exact absurd he (List.not_mem_nil e)
  · simp only [delayMsPerWord]
    omega

/-- Witness for C8 at the concrete text "hello". -/
theorem c8_witness :
    (speak "hello").head? =
      some { timeMs := 0, evt := TTSEvt.speechStarted "hello" } ∧
    0 < (pySplitWhitespace "hello").length * delayMsPerWord + delayMsPerWord :=
  ⟨(c8_speak_started_before_finished "hello" (by decide)).1,
   (c8_speak_started_before_finished "hello" (by decide)).2.2.2⟩

/-- C1.  Falsified by the code (code bug): the `def` of
`_setup_workers_and_threads` sits at eight-space indentation inside the body
of `check_module_import_status_and_notify` (source 2524), so Python binds it
as a local function of that method and it never becomes a `MainWindow`
method; `self._setup_workers_and_threads()` at 1329 therefore raises
`AttributeError`, the broad `except Exception` at 1339 swallows it, and
`self.workers` stays the empty mapping from `__init__` — no worker or thread
is ever instantiated at startup.  The last two conjuncts show the intended
behavior the comment at 2523 asks for: were the routine reachable, its loop
does record one worker and one thread for each of the six capabilities. -/
theorem c1_setup_routine_unreachable :
    mainWindowHasMethod "_setup_workers_and_threads" = false ∧
    checkModuleImportStatusNestedDefs.contains "_setup_workers_and_threads" = true ∧
    (∀ constructionRaises, performFullInitialization constructionRaises =
      InitOutcome.abortedByException "AttributeError" []) ∧
    (setupWorkersAndThreads (fun _ => false) []).workers.map Prod.fst =
      workerSetups ∧
    (setupWorkersAndThreads (fun _ => false) []).workers.all
      (fun p => p.2.hasWorker && p.2.hasThread) = true := by
  refine ⟨by decide, by decide, ?_, by decide, by decide⟩
  intro constructionRaises
  have h : mainWindowHasMethod "_setup_workers_and_threads" = false := by decide
  simp [performFullInitialization, h]

/-- Auxiliary: one setup-loop iteration only ever appends to
`MISSING_MODULES`. -/
theorem setupOneWorker_missing_mono (f : String → Bool) (st : SetupState)
    (a x : String) (hx : x ∈ st.missingModules) :
    x ∈ (setupOneWorker f st a).missingModules := by
  unfold setupOneWorker
  by_cases hf : f a = true
  · by_cases hc : a ∈ st.missingModules
    · simp [hf, hc, hx]
    · simp [hf, hc, List.mem_append, hx]
  · have hf' : f a = false := by simpa using hf
    simp [hf', hx]

/-- Auxiliary: one setup-loop iteration adds at most its own decorated
capability name to `MISSING_MODULES`. -/
theorem setupOneWorker_missing_sub (f : String → Bool) (st : SetupState)
    (a x : String) (hx : x ∈ (setupOneWorker f st a).missingModules) :
    x ∈ st.missingModules ∨ x = a ++ " (setup_failed)" := by
  unfold setupOneWorker at hx
  by_cases hf : f a = true
  · by_cases hc : a ∈ st.missingModules
    · simp [hf, hc] at hx
      exact Or.inl hx
    · simp [hf, hc, List.mem_append] at hx
      exact hx
  · have hf' : f a = false := by simpa using hf
    simp [hf'] at hx
    exact Or.inl hx

/-- Auxiliary: the setup loop only ever appends to `MISSING_MODULES`. -/
theorem setupWorkersLoop_missing_mono (f : String → Bool) :
    ∀ (names : List String) (st : SetupState) (x : String),
      x ∈ st.missingModules →
      x ∈ (setupWorkersLoop f names st).missingModules := by
  intro names
  induction names with
  | nil => intro st x hx; exact hx
  | cons a rest ih =>
      intro st x hx
      exact ih _ x (setupOneWorker_missing_mono f st a x hx)

/-- Auxiliary: the workers mapping produced by the setup loop, characterized
capability by capability: a raising capability is recorded as a null
worker/thread pair; a succeeding one gets a worker and a thread, with the
thread started exactly when the capability is not the camera. -/
theorem setupWorkersLoop_workers (f : String → Bool) :
    ∀ (names : List String) (st : SetupState),
      (setupWorkersLoop f names st).workers =
        st.workers ++ names.map (fun n =>
          (n, if f n then
                { hasWorker := false, hasThread := false, threadStarted := false }
              else
                ({ hasWorker := true, hasThread := true,
                   threadStarted := n != "camera" } : WorkerSlot))) := by
  intro names
  induction names with
  | nil => intro st; simp [setupWorkersLoop]
  | cons a rest ih =>
      intro st
      simp only [setupWorkersLoop, List.map_cons]
      rw [ih]
      unfold setupOneWorker
      cases hf : f a <;> simp [List.append_assoc]

/-- Auxiliary: for every capability in the loop whose construction raises, the
decorated entry `"<name> (setup_failed)"` ends up in `MISSING_MODULES`,
provided no bare capability name is already in the list and no capability
name has the decorated shape of another. -/
theorem setupWorkersLoop_records (f : String → Bool) :
    ∀ (names : List String) (st : SetupState),
      (∀ m ∈ names, m ∉ st.missingModules) →
      (∀ n ∈ names, ∀ m ∈ names, n ≠ m ++ " (setup_failed)") →
      ∀ n ∈ names, f n = true →
        (n ++ " (setup_failed)") ∈ (setupWorkersLoop f names st).missingModules := by
  intro names
  induction names with
  | nil => intro st h1 h2 n hn; exact absurd hn (List.not_mem_nil n)
  | cons a rest ih =>
      intro st h1 h2 n hn hf
      rcases List.mem_cons.mp hn with rfl | hn'
      · simp only [setupWorkersLoop]
        apply setupWorkersLoop_missing_mono
        have ha : n ∉ st.missingModules := h1 n (List.mem_cons_self n rest)
        simp [setupOneWorker, hf, ha, List.mem_append]
      · refine ih (setupOneWorker f st a) ?_ ?_ n hn' hf
        · intro m hm hmem
          rcases setupOneWorker_missing_sub f st a m hmem with h | h
          · exact h1 m (List.mem_cons_of_mem a hm) h
          · exact h2 m (List.mem_cons_of_mem a hm) a
              (List.mem_cons_self a rest) h
        · intro n1 hn1 m hm1
          exact h2 n1 (List.mem_cons_of_mem a hn1) m (List.mem_cons_of_mem a hm1)

/-- C3 counterexample.  Concrete run of the setup loop in which only the
emotion capability's construction raises: the camera capability's setup
succeeds and records a worker and a thread, yet its thread is NOT started
(source 2671-2672 guards `thread.start()` with
`if worker_name not in ["camera"]`), so the claim's "when it succeeds, that
capability's thread is started" is false for a remaining capability. -/
theorem c3_counterexample :
    (setupWorkersAndThreads (fun n => n == "emotion") []).workers.lookup "camera" =
      some { hasWorker := true, hasThread := true, threadStarted := false } ∧
    ¬ (∀ p ∈ (setupWorkersAndThreads (fun n => n == "emotion") []).workers,
        p.2.hasWorker = true → p.2.threadStarted = true) := by
  constructor
  · decide
  · intro hall
    have hmem : ("camera",
        ({ hasWorker := true, hasThread := true, threadStarted := false } : WorkerSlot)) ∈
        (setupWorkersAndThreads (fun n => n == "emotion") []).workers := by decide
    have := hall _ hmem rfl
    exact absurd this (by decide)

/-- C3 (amended).  If one capability's worker construction or wiring raises
inside the setup loop, the exception is caught, that capability is recorded
with a null worker and null thread and `"<name> (setup_failed)"` is appended
to the missing-modules list, and the setup of every remaining capability in
the list still proceeds; every capability whose setup succeeds has its worker
and thread recorded, and its thread is started during setup — except the
camera capability, whose thread is deliberately left unstarted (it is started
later, on demand). -/
theorem c3_partial_failure_isolation (constructionRaises : String → Bool) :
    (setupWorkersAndThreads constructionRaises []).workers =
      workerSetups.map (fun n =>
        (n, if constructionRaises n then
              { hasWorker := false, hasThread := false, threadStarted := false }
            else
              ({ hasWorker := true, hasThread := true,
                 threadStarted := n != "camera" } : WorkerSlot))) ∧
    ∀ n ∈ workerSetups, constructionRaises n = true →
      (n ++ " (setup_failed)") ∈
        (setupWorkersAndThreads constructionRaises []).missingModules := by
  constructor
  · have h := setupWorkersLoop_workers constructionRaises workerSetups
      { workers := [], missingModules := [] }
    simpa [setupWorkersAndThreads] using h
  · intro n hn hf
    refine setupWorkersLoop_records constructionRaises workerSetups
      { workers := [], missingModules := [] } ?_ ?_ n hn hf
    · intro m hm
      exact List.not_mem_nil m
    · decide

/-- Witness for the amended C3 at the concrete behavior where only the
emotion capability's construction raises. -/
theorem c3_witness :
    (setupWorkersAndThreads (fun n => n == "emotion") []).workers =
      workerSetups.map (fun n =>
        (n, if n == "emotion" then
              { hasWorker := false, hasThread := false, threadStarted := false }
            else
              ({ hasWorker := true, hasThread := true,
                 threadStarted := n != "camera" } : WorkerSlot))) ∧
    ("emotion" ++ " (setup_failed)") ∈
      (setupWorkersAndThreads (fun n => n == "emotion") []).missingModules :=
  ⟨(c3_partial_failure_isolation (fun n => n == "emotion")).1,
   (c3_partial_failure_isolation (fun n => n == "emotion")).2 "emotion"
     (by decide) (by decide)⟩

end Updogo
